import Mathlib

/-!
Verification of the Character Pose Editor core (src/App.tsx).

The file embeds, as Lean definitions, the pure logic of the application:
the data-URL codec (dataUrlToInfo and the template-literal encoding at the
generateImage call site), the pad-controller move handler geometry
(handleInteractionMove), the prompt composer (generatePrompt with its three
per-axis blocks), and the state transitions of the application shell
(handleReset, generateImage, and the generate button guard).

Numbers are modelled as real numbers; JavaScript strings as Lean strings;
a JavaScript value that may be `undefined` as an `Option`.
-/

/-! ## Data-URL codec (src/App.tsx lines 7-12 and line 237) -/

/-- JavaScript `s.split(sep)` for a one-character separator, on character
lists. It always returns at least one (possibly empty) piece. -/
def splitOnChar (sep : Char) : List Char → List (List Char)
  | [] => [[]]
  | c :: rest =>
    match splitOnChar sep rest with
    | [] => [[]]
    | g :: gs => if c = sep then [] :: g :: gs else (c :: g) :: gs

/-- The lazy capture of the regex `:(.*?);` once a `:` has been consumed:
the characters up to the first `;`, failing on an ECMAScript line
terminator — LF, CR, LINE SEPARATOR U+2028 or PARAGRAPH SEPARATOR U+2029,
none of which `.` matches — or on the end of the input. -/
def captureToSemi : List Char → Option (List Char)
  | [] => none
  | c :: rest =>
    if c = ';' then some []
    else if c = '\n' ∨ c = '\r' ∨ c = '\u2028' ∨ c = '\u2029' then none
    else (captureToSemi rest).map (fun l => c :: l)

/-- JavaScript `s.match(/:(.*?);/)?.[1]`: the leftmost match of a `:`
followed (lazily) by a `;`, returning the captured group, or `none` when the
pattern does not match anywhere. -/
def matchColonSemi : List Char → Option (List Char)
  | [] => none
  | c :: rest =>
    if c = ':' then
      match captureToSemi rest with
      | some cap => some cap
      | none => matchColonSemi rest
    else matchColonSemi rest

/-- The result of `dataUrlToInfo`. `base64Data` is `none` exactly when the
JavaScript value is `undefined` (no `,` in the input). -/
structure ImageInfo where
  base64Data : Option String
  mimeType : String
deriving DecidableEq, Repr

/-- src/App.tsx lines 7-12: split the data URL on `,`; take the regex
capture of `parts[0]` or fall back to `application/octet-stream` (the
JavaScript `||` also falls back on an empty capture); `parts[1]` is the
payload, `undefined` when absent. -/
def dataUrlToInfo (dataUrl : String) : ImageInfo :=
  let parts := splitOnChar ',' dataUrl.data
  let mimeType :=
    match matchColonSemi (parts.headD []) with
    | some cap => if cap = [] then "application/octet-stream" else String.mk cap
    | none => "application/octet-stream"
  { base64Data := (parts.get? 1).map String.mk, mimeType := mimeType }

/-- src/App.tsx line 237: the template literal
`data:` + mimeType + `;base64,` + data that builds the edited-image slot
value; this is the encode direction of the codec. -/
def encodeDataUrl (base64Data mimeType : String) : String :=
  "data:" ++ mimeType ++ ";base64," ++ base64Data

/-! ## Directional pad controller (src/App.tsx lines 41-63) -/

/-- src/App.tsx line 14: `type Point = \x7b x: number; y: number \x7d`,
with numbers modelled as reals. -/
structure Point where
  x : ℝ
  y : ℝ

/-- The bounding client rect of the pad element, as used by the move
handler: left, top and the outer dimensions. -/
structure Rect where
  left : ℝ
  top : ℝ
  width : ℝ
  height : ℝ

/-- src/App.tsx lines 41-63, the geometric core of `handleInteractionMove`
during an active drag: the vector from the pad center to the pointer,
rescaled onto the boundary circle when its length exceeds the radius, is
the offset written by `setOffset`. -/
noncomputable def handleInteractionMove (clientX clientY : ℝ) (rect : Rect) : Point :=
  let centerX := rect.left + rect.width / 2
  let centerY := rect.top + rect.height / 2
  let dx := clientX - centerX
  let dy := clientY - centerY
  let radius := rect.width / 2
  let distance := Real.sqrt (dx * dx + dy * dy)
  if distance > radius then ⟨dx / distance * radius, dy / distance * radius⟩
  else ⟨dx, dy⟩

/-! ## Prompt composer (src/App.tsx lines 144-199)

`generatePrompt` has three structurally identical blocks (head, body, gaze);
each is embedded as one definition returning the (zero- or one-element) list
of strings the block pushes onto `promptParts`, and `generatePrompt` is
their concatenation. The shared direction computation and the shared
intensity computation are factored out verbatim. -/

/-- src/App.tsx lines 150-152 (repeated at 170-172 and 189-191): the
vertical label and the horizontal label of an offset, the non-empty ones
joined by the literal `" and to the "`. -/
noncomputable def directionLabel (offset : Point) : String :=
  let threshold : ℝ := 15
  let vertical := if offset.y < -threshold then "up"
    else if offset.y > threshold then "down" else ""
  let horizontal := if offset.x < -threshold then "left"
    else if offset.x > threshold then "right" else ""
  String.intercalate " and to the " (List.filter (fun s => s ≠ "") [vertical, horizontal])

/-- src/App.tsx lines 155-160 (repeated at 175-180): the intensity
qualifier for a distance relative to a pad radius. -/
noncomputable def intensityAmount (padRadius distance : ℝ) : String :=
  if distance > padRadius * 0.75 then "significantly "
  else if distance < padRadius * 0.4 then "slightly " else ""

/-- src/App.tsx lines 148-165: the head block of `generatePrompt`
(deadzone threshold 15, pad radius 64). -/
noncomputable def headPart (headOffset : Point) : List String :=
  let threshold : ℝ := 15
  let headDistance := Real.sqrt (headOffset.x ^ 2 + headOffset.y ^ 2)
  if headDistance > threshold then
    let headDirection := directionLabel headOffset
    let tiltAmount := intensityAmount 64 headDistance
    if headDirection ≠ "" then
      ["Tilt the main subject's head " ++ tiltAmount ++ headDirection ++ "."]
    else []
  else []

/-- src/App.tsx lines 168-185: the body block of `generatePrompt`
(deadzone threshold 15, pad radius 80 — half of the body pad size 160). -/
noncomputable def bodyPart (bodyOffset : Point) : List String :=
  let threshold : ℝ := 15
  let bodyDistance := Real.sqrt (bodyOffset.x ^ 2 + bodyOffset.y ^ 2)
  if bodyDistance > threshold then
    let bodyDirection := directionLabel bodyOffset
    let turnAmount := intensityAmount 80 bodyDistance
    if bodyDirection ≠ "" then
      ["Turn the main subject's body " ++ turnAmount ++ "to face " ++ bodyDirection ++ "."]
    else []
  else []

/-- src/App.tsx lines 187-193: the gaze block of `generatePrompt`
(deadzone threshold 15, no intensity qualifier). -/
noncomputable def gazePart (gazeOffset : Point) : List String :=
  let threshold : ℝ := 15
  let gazeDistance := Real.sqrt (gazeOffset.x ^ 2 + gazeOffset.y ^ 2)
  if gazeDistance > threshold then
    let gazeDirection := directionLabel gazeOffset
    if gazeDirection ≠ "" then ["Make the subject look " ++ gazeDirection ++ "."]
    else []
  else []

/-- src/App.tsx lines 144-199: `generatePrompt` reads the three offsets
(gaze, head, body), collects the head, body and gaze phrases in that order,
and joins them with single spaces, falling back to the fixed sentence when
no phrase qualifies. -/
noncomputable def generatePrompt (gazeOffset headOffset bodyOffset : Point) : String :=
  let promptParts := headPart headOffset ++ bodyPart bodyOffset ++ gazePart gazeOffset
  if promptParts.length = 0 then
    "Make a high-quality, photorealistic image of the subject, keeping the style the same."
  else
    String.intercalate " " promptParts

/-! ## Application shell state (src/App.tsx lines 107-142, 201-247, 329) -/

/-- The React state of `App` (src/App.tsx lines 108-115): the two image
slots, the loading flag, the error slot and the three pad offsets. -/
structure AppState where
  originalImage : Option String
  editedImage : Option String
  isLoading : Bool
  error : Option String
  gazeOffset : Point
  headOffset : Point
  bodyOffset : Point

/-- src/App.tsx lines 137-142: `handleReset` zeroes the three offsets and
clears the error slot. -/
def handleReset (s : AppState) : AppState :=
  { s with
    gazeOffset := ⟨0, 0⟩
    headOffset := ⟨0, 0⟩
    bodyOffset := ⟨0, 0⟩
    error := none }

/-- The outcome of the one `await` in `generateImage`: the service returns
a response holding an inline-data part, a response without one, or the call
(or anything inside the `try`) throws with a message. -/
inductive ServiceOutcome where
  | success (data mime : String)
  | noImage
  | failure (msg : String)

/-- src/App.tsx lines 201-247: `generateImage` as a state transition. The
environment (the API key and the service outcome) is passed explicitly;
the returned flag records whether the service was called. With no original
image the function sets the error and returns at once; otherwise it sets
loading, clears error and the edited slot, and runs the try/catch/finally;
the catch stores `e.message` or, when that message is falsy (empty), the
generic fallback of line 243. -/
def generateImage (s : AppState) (apiKey : Option String) (outcome : ServiceOutcome) :
    AppState × Bool :=
  match s.originalImage with
  | none => ({ s with error := some "Please upload an image first." }, false)
  | some _ =>
    let s1 : AppState := { s with isLoading := true, error := none, editedImage := none }
    match apiKey with
    | none =>
      ({ s1 with error := some "API_KEY is not set in environment variables.",
                 isLoading := false }, false)
    | some _ =>
      match outcome with
      | .success data mime =>
        ({ s1 with editedImage := some (encodeDataUrl data mime), isLoading := false }, true)
      | .noImage =>
        ({ s1 with error := some "No image was generated. The response may have been blocked.",
                   isLoading := false }, true)
      | .failure msg =>
        ({ s1 with error := some (if msg = "" then "An unexpected error occurred." else msg),
                   isLoading := false }, true)

/-- src/App.tsx line 329: the generate button carries
`disabled=\x7bisLoading\x7d`. -/
def generateDisabled (s : AppState) : Bool := s.isLoading

/-- A click on the generate button: a disabled HTML button fires no click
event, so `generateImage` runs only when `generateDisabled` is false. -/
def generateClick (s : AppState) (apiKey : Option String) (outcome : ServiceOutcome) :
    AppState × Bool :=
  if generateDisabled s then (s, false) else generateImage s apiKey outcome

/-! ## Helper lemmas -/

lemma sqrtEval (a b c : ℝ) (hc : 0 ≤ c) (h : a ^ 2 + b ^ 2 = c ^ 2) :
    Real.sqrt (a ^ 2 + b ^ 2) = c := by
  rw [h, Real.sqrt_sq hc]

lemma distEval (a b c : ℝ) (hc : 0 ≤ c) (h : a ^ 2 + b ^ 2 = c ^ 2) :
    Real.sqrt ((Point.mk a b).x ^ 2 + (Point.mk a b).y ^ 2) = c :=
  sqrtEval a b c hc h

lemma splitOnChar_ne_nil (sep : Char) (l : List Char) : splitOnChar sep l ≠ [] := by
  induction l with
  | nil => simp [splitOnChar]
  | cons c rest ih =>
    unfold splitOnChar
    cases h : splitOnChar sep rest with
    | nil => simp
    | cons g gs => by_cases hc : c = sep <;> simp [hc]

lemma splitOnChar_not_mem (sep : Char) (l : List Char) (h : sep ∉ l) :
    splitOnChar sep l = [l] := by
  induction l with
  | nil => rfl
  | cons c rest ih =>
    rw [List.mem_cons] at h
    push_neg at h
    conv_lhs => rw [splitOnChar]
    rw [ih h.2]
    simp [Ne.symm h.1]

lemma splitOnChar_append (sep : Char) (l₁ l₂ : List Char) (h : sep ∉ l₁) :
    splitOnChar sep (l₁ ++ sep :: l₂) = l₁ :: splitOnChar sep l₂ := by
  induction l₁ with
  | nil =>
    simp only [List.nil_append]
    conv_lhs => rw [splitOnChar]
    cases hs : splitOnChar sep l₂ with
    | nil => exact absurd hs (splitOnChar_ne_nil sep l₂)
    | cons g gs => simp
  | cons c rest ih =>
    rw [List.mem_cons] at h
    push_neg at h
    simp only [List.cons_append]
    conv_lhs => rw [splitOnChar]
    rw [ih h.2]
    simp [Ne.symm h.1]

lemma captureToSemi_append (l r : List Char)
    (h : ∀ c ∈ l, c ≠ ';' ∧ c ≠ '\n' ∧ c ≠ '\r' ∧ c ≠ '\u2028' ∧ c ≠ '\u2029') :
    captureToSemi (l ++ ';' :: r) = some l := by
  induction l with
  | nil =>
    simp only [List.nil_append]
    conv_lhs => rw [captureToSemi]
    simp
  | cons c rest ih =>
    obtain ⟨h1, h2, h3, h4, h5⟩ := h c (List.mem_cons_self c rest)
    simp only [List.cons_append]
    conv_lhs => rw [captureToSemi]
    rw [ih (fun d hd => h d (List.mem_cons_of_mem c hd))]
    simp [h1, h2, h3, h4, h5]

lemma matchColonSemi_cons_ne (c : Char) (l : List Char) (h : c ≠ ':') :
    matchColonSemi (c :: l) = matchColonSemi l := by
  conv_lhs => rw [matchColonSemi]
  simp [h]

lemma matchColonSemi_colon (l : List Char) (cap : List Char)
    (h : captureToSemi l = some cap) : matchColonSemi (':' :: l) = some cap := by
  conv_lhs => rw [matchColonSemi]
  rw [h]
  simp

lemma string_data_ne_nil (m : String) (h : m ≠ "") : m.data ≠ [] := by
  intro hd
  apply h
  cases m with
  | mk l =>
    simp only [String.data] at hd
    subst hd
    rfl

lemma headPart_of_le (p : Point) (h : Real.sqrt (p.x ^ 2 + p.y ^ 2) ≤ 15) :
    headPart p = [] := by
  unfold headPart
  rw [if_neg (not_lt.mpr h)]

lemma bodyPart_of_le (p : Point) (h : Real.sqrt (p.x ^ 2 + p.y ^ 2) ≤ 15) :
    bodyPart p = [] := by
  unfold bodyPart
  rw [if_neg (not_lt.mpr h)]

lemma gazePart_of_le (p : Point) (h : Real.sqrt (p.x ^ 2 + p.y ^ 2) ≤ 15) :
    gazePart p = [] := by
  unfold gazePart
  rw [if_neg (not_lt.mpr h)]

lemma directionLabel_empty (p : Point) (hx : |p.x| ≤ 15) (hy : |p.y| ≤ 15) :
    directionLabel p = "" := by
  rw [abs_le] at hx hy
  have h1 : ¬ (p.y < -15) := by push_neg; linarith [hy.1]
  have h2 : ¬ (p.y > 15) := by push_neg; exact hy.2
  have h3 : ¬ (p.x < -15) := by push_neg; linarith [hx.1]
  have h4 : ¬ (p.x > 15) := by push_neg; exact hx.2
  unfold directionLabel
  dsimp only []
  rw [if_neg h1, if_neg h2, if_neg h3, if_neg h4]
  decide

lemma directionLabel_ne (p : Point) (h : 15 < |p.x| ∨ 15 < |p.y|) :
    directionLabel p ≠ "" := by
  unfold directionLabel
  dsimp only []
  split_ifs <;>
    first
      | decide
      | (rcases h with h | h <;> rw [lt_abs] at h <;> rcases h with h | h <;> linarith)

lemma headPart_eq (p : Point) (h15 : 15 < Real.sqrt (p.x ^ 2 + p.y ^ 2))
    (hdir : directionLabel p ≠ "") :
    headPart p = ["Tilt the main subject's head " ++
      intensityAmount 64 (Real.sqrt (p.x ^ 2 + p.y ^ 2)) ++ directionLabel p ++ "."] := by
  unfold headPart
  rw [if_pos h15, if_pos hdir]

lemma bodyPart_eq (p : Point) (h15 : 15 < Real.sqrt (p.x ^ 2 + p.y ^ 2))
    (hdir : directionLabel p ≠ "") :
    bodyPart p = ["Turn the main subject's body " ++
      intensityAmount 80 (Real.sqrt (p.x ^ 2 + p.y ^ 2)) ++ "to face " ++
      directionLabel p ++ "."] := by
  unfold bodyPart
  rw [if_pos h15, if_pos hdir]

lemma gazePart_eq (p : Point) (h15 : 15 < Real.sqrt (p.x ^ 2 + p.y ^ 2))
    (hdir : directionLabel p ≠ "") :
    gazePart p = ["Make the subject look " ++ directionLabel p ++ "."] := by
  unfold gazePart
  rw [if_pos h15, if_pos hdir]

lemma headPart_of_dir_empty (p : Point) (h : directionLabel p = "") :
    headPart p = [] := by
  unfold headPart
  dsimp only []
  split_ifs with h1 h2
  · exact absurd h h2
  · rfl
  · rfl

lemma bodyPart_of_dir_empty (p : Point) (h : directionLabel p = "") :
    bodyPart p = [] := by
  unfold bodyPart
  dsimp only []
  split_ifs with h1 h2
  · exact absurd h h2
  · rfl
  · rfl

lemma gazePart_of_dir_empty (p : Point) (h : directionLabel p = "") :
    gazePart p = [] := by
  unfold gazePart
  dsimp only []
  split_ifs with h1 h2
  · exact absurd h h2
  · rfl
  · rfl

lemma intensityAmount_sig (r d : ℝ) (h : r * 0.75 < d) :
    intensityAmount r d = "significantly " := by
  unfold intensityAmount
  rw [if_pos h]

lemma intensityAmount_sli (r d : ℝ) (h : ¬ r * 0.75 < d) (h2 : d < r * 0.4) :
    intensityAmount r d = "slightly " := by
  unfold intensityAmount
  rw [if_neg h, if_pos h2]

lemma intensityAmount_none (r d : ℝ) (h : ¬ r * 0.75 < d) (h2 : ¬ d < r * 0.4) :
    intensityAmount r d = "" := by
  unfold intensityAmount
  rw [if_neg h, if_neg h2]

lemma headPart_eval_up : headPart ⟨0, -30⟩ = ["Tilt the main subject's head up."] := by
  unfold headPart directionLabel intensityAmount
  rw [sqrtEval 0 (-30) 30 (by norm_num) (by norm_num)]
  norm_num
  decide

lemma bodyPart_eval_slightly_right :
    bodyPart ⟨30, 0⟩ = ["Turn the main subject's body slightly to face right."] := by
  unfold bodyPart directionLabel intensityAmount
  rw [sqrtEval 30 0 30 (by norm_num) (by norm_num)]
  norm_num
  decide

lemma gazePart_eval_down : gazePart ⟨0, 30⟩ = ["Make the subject look down."] := by
  unfold gazePart directionLabel
  rw [sqrtEval 0 30 30 (by norm_num) (by norm_num)]
  norm_num
  decide

lemma generatePrompt_eval_example : generatePrompt ⟨0, 30⟩ ⟨0, -30⟩ ⟨30, 0⟩ =
    "Tilt the main subject's head up. Turn the main subject's body slightly to face right. Make the subject look down." := by
  simp only [generatePrompt, headPart_eval_up, bodyPart_eval_slightly_right,
    gazePart_eval_down]
  decide

/-! ## Claim theorems -/

/-- C1 counterexample: with head offset (0,-30), body offset (30,0) and gaze
offset (0,30), the composed prompt is not the unqualified sentence the claim
states: the body pad radius is 80, and distance 30 is below 0.4 times 80, so
the body phrase carries the qualifier slightly. -/
theorem generatePrompt_ordering_unqualified_false :
    generatePrompt ⟨0, 30⟩ ⟨0, -30⟩ ⟨30, 0⟩ ≠
      "Tilt the main subject's head up. Turn the main subject's body to face right. Make the subject look down." := by
  rw [generatePrompt_eval_example]
  decide

/-- C1 (amended): with head offset (0,-30), body offset (30,0) and gaze
offset (0,30), the composed prompt places the head phrase first, the body
phrase second and the gaze phrase third, joined by single spaces; the head
and gaze phrases carry no qualifier, the body phrase carries slightly. -/
theorem generatePrompt_ordering_example :
    headPart ⟨0, -30⟩ = ["Tilt the main subject's head up."]
    ∧ bodyPart ⟨30, 0⟩ = ["Turn the main subject's body slightly to face right."]
    ∧ gazePart ⟨0, 30⟩ = ["Make the subject look down."]
    ∧ generatePrompt ⟨0, 30⟩ ⟨0, -30⟩ ⟨30, 0⟩ =
      "Tilt the main subject's head up. Turn the main subject's body slightly to face right. Make the subject look down." :=
  ⟨headPart_eval_up, bodyPart_eval_slightly_right, gazePart_eval_down,
   generatePrompt_eval_example⟩

/-- C5: when the gaze, head and body offsets are all within the deadzone
(Euclidean distance at most 15), the composer returns exactly the fallback
sentence. -/
theorem generatePrompt_fallback (gaze head body : Point)
    (hg : Real.sqrt (gaze.x ^ 2 + gaze.y ^ 2) ≤ 15)
    (hh : Real.sqrt (head.x ^ 2 + head.y ^ 2) ≤ 15)
    (hb : Real.sqrt (body.x ^ 2 + body.y ^ 2) ≤ 15) :
    generatePrompt gaze head body =
      "Make a high-quality, photorealistic image of the subject, keeping the style the same." := by
  simp only [generatePrompt, headPart_of_le head hh, bodyPart_of_le body hb,
    gazePart_of_le gaze hg]
  decide

/-- C5 witness: the fallback at all-zero offsets. -/
theorem generatePrompt_fallback_witness :
    generatePrompt ⟨0, 0⟩ ⟨0, 0⟩ ⟨0, 0⟩ =
      "Make a high-quality, photorealistic image of the subject, keeping the style the same." :=
  generatePrompt_fallback ⟨0, 0⟩ ⟨0, 0⟩ ⟨0, 0⟩
    (by rw [distEval 0 0 0 le_rfl (by norm_num)]; norm_num)
    (by rw [distEval 0 0 0 le_rfl (by norm_num)]; norm_num)
    (by rw [distEval 0 0 0 le_rfl (by norm_num)]; norm_num)

/-- C4 counterexample: the offset (11,11) has distance above the deadzone
threshold 15 while both of its direction labels are empty, so the axis
contributes no phrase although its distance is above the threshold; the
claim calls this case impossible and says a distance marginally above the
threshold produces a phrase. -/
theorem deadzone_above_threshold_no_phrase :
    15 < Real.sqrt ((11 : ℝ) ^ 2 + 11 ^ 2)
    ∧ headPart ⟨11, 11⟩ = [] ∧ bodyPart ⟨11, 11⟩ = [] ∧ gazePart ⟨11, 11⟩ = [] := by
  have hdir : directionLabel ⟨11, 11⟩ = "" :=
    directionLabel_empty ⟨11, 11⟩ (by norm_num) (by norm_num)
  refine ⟨?_, headPart_of_dir_empty _ hdir, bodyPart_of_dir_empty _ hdir,
    gazePart_of_dir_empty _ hdir⟩
  have h := Real.sqrt_lt_sqrt (by norm_num : (0:ℝ) ≤ 225)
    (by norm_num : (225 : ℝ) < 11 ^ 2 + 11 ^ 2)
  rwa [show (225 : ℝ) = 15 ^ 2 by norm_num, Real.sqrt_sq (by norm_num : (0:ℝ) ≤ 15)] at h

/-- C4 (amended): for every axis, an offset whose distance is exactly 15
contributes no phrase; a distance above 15 produces a phrase when some
component exceeds 15 in absolute value; and when both components are at
most 15 in absolute value (which can happen with distance above 15, for
example (11,11)) the axis contributes no phrase. -/
theorem deadzone_exactness :
    (∀ p : Point, Real.sqrt (p.x ^ 2 + p.y ^ 2) = 15 →
      headPart p = [] ∧ bodyPart p = [] ∧ gazePart p = [])
    ∧ (∀ p : Point, 15 < Real.sqrt (p.x ^ 2 + p.y ^ 2) → 15 < |p.x| ∨ 15 < |p.y| →
      headPart p ≠ [] ∧ bodyPart p ≠ [] ∧ gazePart p ≠ [])
    ∧ (∀ p : Point, |p.x| ≤ 15 → |p.y| ≤ 15 →
      headPart p = [] ∧ bodyPart p = [] ∧ gazePart p = []) := by
  refine ⟨fun p hp => ?_, fun p h15 hc => ?_, fun p hx hy => ?_⟩
  · exact ⟨headPart_of_le p hp.le, bodyPart_of_le p hp.le, gazePart_of_le p hp.le⟩
  · have hdir := directionLabel_ne p hc
    rw [headPart_eq p h15 hdir, bodyPart_eq p h15 hdir, gazePart_eq p h15 hdir]
    exact ⟨by simp, by simp, by simp⟩
  · have hdir := directionLabel_empty p hx hy
    exact ⟨headPart_of_dir_empty p hdir, bodyPart_of_dir_empty p hdir,
      gazePart_of_dir_empty p hdir⟩

/-- C4 witness: distance exactly 15 at (9,12) gives no phrase; distance 16
at (0,16) gives a phrase on every axis; (11,11) gives no phrase. -/
theorem deadzone_exactness_witness :
    (headPart ⟨9, 12⟩ = [] ∧ bodyPart ⟨9, 12⟩ = [] ∧ gazePart ⟨9, 12⟩ = [])
    ∧ (headPart ⟨0, 16⟩ ≠ [] ∧ bodyPart ⟨0, 16⟩ ≠ [] ∧ gazePart ⟨0, 16⟩ ≠ [])
    ∧ (headPart ⟨11, 11⟩ = [] ∧ bodyPart ⟨11, 11⟩ = [] ∧ gazePart ⟨11, 11⟩ = []) :=
  ⟨deadzone_exactness.1 ⟨9, 12⟩ (distEval 9 12 15 (by norm_num) (by norm_num)),
   deadzone_exactness.2.1 ⟨0, 16⟩
     (by rw [distEval 0 16 16 (by norm_num) (by norm_num)]; norm_num)
     (Or.inr (by norm_num)),
   deadzone_exactness.2.2 ⟨11, 11⟩ (by norm_num) (by norm_num)⟩

/-- C3: past the deadzone, the head phrase and the body phrase carry the
qualifier significantly when the distance exceeds 0.75 times that pad
radius (64 for head, 80 for body), slightly when it is below 0.4 times
that pad radius, and no qualifier otherwise; the gaze phrase never
carries an intensity qualifier. -/
theorem intensity_qualifier_thresholds :
    (∀ p : Point, 64 * 0.75 < Real.sqrt (p.x ^ 2 + p.y ^ 2) → directionLabel p ≠ "" →
      headPart p = ["Tilt the main subject's head significantly " ++ directionLabel p ++ "."])
    ∧ (∀ p : Point, 15 < Real.sqrt (p.x ^ 2 + p.y ^ 2) →
        Real.sqrt (p.x ^ 2 + p.y ^ 2) < 64 * 0.4 → directionLabel p ≠ "" →
      headPart p = ["Tilt the main subject's head slightly " ++ directionLabel p ++ "."])
    ∧ (∀ p : Point, 64 * 0.4 ≤ Real.sqrt (p.x ^ 2 + p.y ^ 2) →
        Real.sqrt (p.x ^ 2 + p.y ^ 2) ≤ 64 * 0.75 → directionLabel p ≠ "" →
      headPart p = ["Tilt the main subject's head " ++ directionLabel p ++ "."])
    ∧ (∀ p : Point, 80 * 0.75 < Real.sqrt (p.x ^ 2 + p.y ^ 2) → directionLabel p ≠ "" →
      bodyPart p = ["Turn the main subject's body significantly to face " ++ directionLabel p ++ "."])
    ∧ (∀ p : Point, 15 < Real.sqrt (p.x ^ 2 + p.y ^ 2) →
        Real.sqrt (p.x ^ 2 + p.y ^ 2) < 80 * 0.4 → directionLabel p ≠ "" →
      bodyPart p = ["Turn the main subject's body slightly to face " ++ directionLabel p ++ "."])
    ∧ (∀ p : Point, 80 * 0.4 ≤ Real.sqrt (p.x ^ 2 + p.y ^ 2) →
        Real.sqrt (p.x ^ 2 + p.y ^ 2) ≤ 80 * 0.75 → directionLabel p ≠ "" →
      bodyPart p = ["Turn the main subject's body to face " ++ directionLabel p ++ "."])
    ∧ (∀ p : Point, gazePart p = [] ∨
      gazePart p = ["Make the subject look " ++ directionLabel p ++ "."]) := by
  refine ⟨fun p hsig hdir => ?_, fun p h15 hsli hdir => ?_, fun p hlo hhi hdir => ?_,
    fun p hsig hdir => ?_, fun p h15 hsli hdir => ?_, fun p hlo hhi hdir => ?_,
    fun p => ?_⟩
  · have h15 : 15 < Real.sqrt (p.x ^ 2 + p.y ^ 2) :=
      lt_trans (by norm_num : (15:ℝ) < 64 * 0.75) hsig
    rw [headPart_eq p h15 hdir, intensityAmount_sig _ _ hsig,
      show ("Tilt the main subject's head " ++ "significantly " : String) =
        "Tilt the main subject's head significantly " by decide]
  · rw [headPart_eq p h15 hdir,
      intensityAmount_sli _ _ (by intro h; linarith [lt_trans hsli (by norm_num : (64:ℝ) * 0.4 < 64 * 0.75)]) hsli,
      show ("Tilt the main subject's head " ++ "slightly " : String) =
        "Tilt the main subject's head slightly " by decide]
  · have h15 : 15 < Real.sqrt (p.x ^ 2 + p.y ^ 2) :=
      lt_of_lt_of_le (by norm_num : (15:ℝ) < 64 * 0.4) hlo
    rw [headPart_eq p h15 hdir, intensityAmount_none _ _ (not_lt.mpr hhi) (not_lt.mpr hlo),
      show ("Tilt the main subject's head " ++ "" : String) =
        "Tilt the main subject's head " by decide]
  · have h15 : 15 < Real.sqrt (p.x ^ 2 + p.y ^ 2) :=
      lt_trans (by norm_num : (15:ℝ) < 80 * 0.75) hsig
    rw [bodyPart_eq p h15 hdir, intensityAmount_sig _ _ hsig,
      show ("Turn the main subject's body " ++ "significantly " : String) =
        "Turn the main subject's body significantly " by decide,
      show ("Turn the main subject's body significantly " ++ "to face " : String) =
        "Turn the main subject's body significantly to face " by decide]
  · rw [bodyPart_eq p h15 hdir,
      intensityAmount_sli _ _ (by intro h; linarith [lt_trans hsli (by norm_num : (80:ℝ) * 0.4 < 80 * 0.75)]) hsli,
      show ("Turn the main subject's body " ++ "slightly " : String) =
        "Turn the main subject's body slightly " by decide,
      show ("Turn the main subject's body slightly " ++ "to face " : String) =
        "Turn the main subject's body slightly to face " by decide]
  · have h15 : 15 < Real.sqrt (p.x ^ 2 + p.y ^ 2) :=
      lt_of_lt_of_le (by norm_num : (15:ℝ) < 80 * 0.4) hlo
    rw [bodyPart_eq p h15 hdir, intensityAmount_none _ _ (not_lt.mpr hhi) (not_lt.mpr hlo),
      show ("Turn the main subject's body " ++ "" : String) =
        "Turn the main subject's body " by decide,
      show ("Turn the main subject's body " ++ "to face " : String) =
        "Turn the main subject's body to face " by decide]
  · by_cases h15 : 15 < Real.sqrt (p.x ^ 2 + p.y ^ 2)
    · by_cases hdir : directionLabel p = ""
      · exact Or.inl (gazePart_of_dir_empty p hdir)
      · exact Or.inr (gazePart_eq p h15 hdir)
    · exact Or.inl (gazePart_of_le p (not_lt.mp h15))

/-- C3 witness: head distance 50 gives significantly, head distance 20
gives slightly, head distance 30 gives no qualifier; body distance 70
gives significantly, body distance 30 gives slightly, body distance 40
gives no qualifier; the gaze phrase at (0,30) is unqualified. -/
theorem intensity_qualifier_thresholds_witness :
    headPart ⟨30, 40⟩ = ["Tilt the main subject's head significantly " ++ directionLabel ⟨30, 40⟩ ++ "."]
    ∧ headPart ⟨12, 16⟩ = ["Tilt the main subject's head slightly " ++ directionLabel ⟨12, 16⟩ ++ "."]
    ∧ headPart ⟨0, 30⟩ = ["Tilt the main subject's head " ++ directionLabel ⟨0, 30⟩ ++ "."]
    ∧ bodyPart ⟨0, -70⟩ = ["Turn the main subject's body significantly to face " ++ directionLabel ⟨0, -70⟩ ++ "."]
    ∧ bodyPart ⟨30, 0⟩ = ["Turn the main subject's body slightly to face " ++ directionLabel ⟨30, 0⟩ ++ "."]
    ∧ bodyPart ⟨0, 40⟩ = ["Turn the main subject's body to face " ++ directionLabel ⟨0, 40⟩ ++ "."]
    ∧ (gazePart ⟨0, 30⟩ = [] ∨
       gazePart ⟨0, 30⟩ = ["Make the subject look " ++ directionLabel ⟨0, 30⟩ ++ "."]) :=
  ⟨intensity_qualifier_thresholds.1 ⟨30, 40⟩
     (by rw [distEval 30 40 50 (by norm_num) (by norm_num)]; norm_num)
     (directionLabel_ne ⟨30, 40⟩ (Or.inl (by norm_num))),
   intensity_qualifier_thresholds.2.1 ⟨12, 16⟩
     (by rw [distEval 12 16 20 (by norm_num) (by norm_num)]; norm_num)
     (by rw [distEval 12 16 20 (by norm_num) (by norm_num)]; norm_num)
     (directionLabel_ne ⟨12, 16⟩ (Or.inr (by norm_num))),
   intensity_qualifier_thresholds.2.2.1 ⟨0, 30⟩
     (by rw [distEval 0 30 30 (by norm_num) (by norm_num)]; norm_num)
     (by rw [distEval 0 30 30 (by norm_num) (by norm_num)]; norm_num)
     (directionLabel_ne ⟨0, 30⟩ (Or.inr (by norm_num))),
   intensity_qualifier_thresholds.2.2.2.1 ⟨0, -70⟩
     (by rw [distEval 0 (-70) 70 (by norm_num) (by norm_num)]; norm_num)
     (directionLabel_ne ⟨0, -70⟩ (Or.inr (by norm_num))),
   intensity_qualifier_thresholds.2.2.2.2.1 ⟨30, 0⟩
     (by rw [distEval 30 0 30 (by norm_num) (by norm_num)]; norm_num)
     (by rw [distEval 30 0 30 (by norm_num) (by norm_num)]; norm_num)
     (directionLabel_ne ⟨30, 0⟩ (Or.inl (by norm_num))),
   intensity_qualifier_thresholds.2.2.2.2.2.1 ⟨0, 40⟩
     (by rw [distEval 0 40 40 (by norm_num) (by norm_num)]; norm_num)
     (by rw [distEval 0 40 40 (by norm_num) (by norm_num)]; norm_num)
     (directionLabel_ne ⟨0, 40⟩ (Or.inr (by norm_num))),
   intensity_qualifier_thresholds.2.2.2.2.2.2 ⟨0, 30⟩⟩

/-- C2: for every pointer position, the offset written by the move handler
has magnitude at most the pad radius (half the outer width); when the raw
center-to-pointer vector exceeds the radius it is rescaled to exactly the
radius preserving its direction (cross-multiplied form, and the unit
vector itself when the radius is positive); a pointer exactly at the pad
center yields offset (0,0). -/
theorem handleInteractionMove_clamps (clientX clientY : ℝ) (rect : Rect)
    (hw : 0 ≤ rect.width) :
    Real.sqrt ((handleInteractionMove clientX clientY rect).x *
        (handleInteractionMove clientX clientY rect).x +
        (handleInteractionMove clientX clientY rect).y *
        (handleInteractionMove clientX clientY rect).y) ≤ rect.width / 2
    ∧ (rect.width / 2 <
          Real.sqrt ((clientX - (rect.left + rect.width / 2)) *
              (clientX - (rect.left + rect.width / 2)) +
            (clientY - (rect.top + rect.height / 2)) *
              (clientY - (rect.top + rect.height / 2))) →
        Real.sqrt ((handleInteractionMove clientX clientY rect).x *
            (handleInteractionMove clientX clientY rect).x +
            (handleInteractionMove clientX clientY rect).y *
            (handleInteractionMove clientX clientY rect).y) = rect.width / 2
        ∧ (handleInteractionMove clientX clientY rect).x *
            Real.sqrt ((clientX - (rect.left + rect.width / 2)) *
                (clientX - (rect.left + rect.width / 2)) +
              (clientY - (rect.top + rect.height / 2)) *
                (clientY - (rect.top + rect.height / 2)))
            = (clientX - (rect.left + rect.width / 2)) * (rect.width / 2)
        ∧ (handleInteractionMove clientX clientY rect).y *
            Real.sqrt ((clientX - (rect.left + rect.width / 2)) *
                (clientX - (rect.left + rect.width / 2)) +
              (clientY - (rect.top + rect.height / 2)) *
                (clientY - (rect.top + rect.height / 2)))
            = (clientY - (rect.top + rect.height / 2)) * (rect.width / 2)
        ∧ (0 < rect.width →
            (handleInteractionMove clientX clientY rect).x / (rect.width / 2)
              = (clientX - (rect.left + rect.width / 2)) /
                Real.sqrt ((clientX - (rect.left + rect.width / 2)) *
                    (clientX - (rect.left + rect.width / 2)) +
                  (clientY - (rect.top + rect.height / 2)) *
                    (clientY - (rect.top + rect.height / 2)))
            ∧ (handleInteractionMove clientX clientY rect).y / (rect.width / 2)
              = (clientY - (rect.top + rect.height / 2)) /
                Real.sqrt ((clientX - (rect.left + rect.width / 2)) *
                    (clientX - (rect.left + rect.width / 2)) +
                  (clientY - (rect.top + rect.height / 2)) *
                    (clientY - (rect.top + rect.height / 2)))))
    ∧ (clientX = rect.left + rect.width / 2 → clientY = rect.top + rect.height / 2 →
        handleInteractionMove clientX clientY rect = ⟨0, 0⟩) := by
  set dx := clientX - (rect.left + rect.width / 2) with hdx
  set dy := clientY - (rect.top + rect.height / 2) with hdy
  set r := rect.width / 2 with hr
  set d := Real.sqrt (dx * dx + dy * dy) with hd
  have hr0 : 0 ≤ r := by positivity
  have hsum0 : 0 ≤ dx * dx + dy * dy := by nlinarith [sq_nonneg dx, sq_nonneg dy]
  have hd0 : 0 ≤ d := Real.sqrt_nonneg _
  have hdd : d * d = dx * dx + dy * dy := Real.mul_self_sqrt hsum0
  have hmove : handleInteractionMove clientX clientY rect =
      if d > r then ⟨dx / d * r, dy / d * r⟩ else ⟨dx, dy⟩ := rfl
  by_cases h : d > r
  · have hdpos : 0 < d := lt_of_le_of_lt hr0 h
    have hdne : d ≠ 0 := ne_of_gt hdpos
    rw [hmove, if_pos h]
    have hmag : (dx / d * r) * (dx / d * r) + (dy / d * r) * (dy / d * r) = r * r := by
      field_simp
      nlinarith [hdd]
    refine ⟨?_, fun _ => ⟨?_, by field_simp, by field_simp, fun hwpos => ?_⟩, ?_⟩
    · simp only [hmag]
      rw [Real.sqrt_mul_self hr0]
    · simp only [hmag]
      rw [Real.sqrt_mul_self hr0]
    · have hrpos : (0:ℝ) < r := by rw [hr]; positivity
      have hrne : r ≠ 0 := ne_of_gt hrpos
      constructor <;> field_simp <;> ring
    · intro hx hy
      exfalso
      have hdx0 : dx = 0 := by rw [hdx, hx]; ring
      have hdy0 : dy = 0 := by rw [hdy, hy]; ring
      rw [hdx0, hdy0] at hd
      simp at hd
      rw [hd] at h
      exact absurd (lt_of_le_of_lt hr0 h) (lt_irrefl 0)
  · rw [hmove, if_neg h]
    push_neg at h
    refine ⟨by simpa [hd] using h, fun h' => absurd h' (not_lt.mpr h), ?_⟩
    intro hx hy
    have h1 : dx = 0 := by rw [hdx, hx]; ring
    have h2 : dy = 0 := by rw [hdy, hy]; ring
    rw [h1, h2]

/-- C2 witness: the magnitude bound at pointer (10,1) over the pad with
rect (0,0,2,2), where the raw vector (9,0) exceeds the radius 1. -/
theorem handleInteractionMove_clamps_witness :
    Real.sqrt ((handleInteractionMove 10 1 ⟨0, 0, 2, 2⟩).x *
        (handleInteractionMove 10 1 ⟨0, 0, 2, 2⟩).x +
        (handleInteractionMove 10 1 ⟨0, 0, 2, 2⟩).y *
        (handleInteractionMove 10 1 ⟨0, 0, 2, 2⟩).y) ≤ (2 : ℝ) / 2 :=
  (handleInteractionMove_clamps 10 1 ⟨0, 0, 2, 2⟩ (by norm_num)).1

/-- C6: decoding the encoded image string built from a well-formed pair
(payload without a comma; non-empty media type without semicolon, comma or
line terminators) returns exactly the original pair. -/
theorem decode_encode_roundtrip (b m : String) (hm0 : m ≠ "") (h1 : ';' ∉ m.data)
    (h2 : ',' ∉ m.data) (h3 : '\n' ∉ m.data) (h3' : '\r' ∉ m.data)
    (h5 : '\u2028' ∉ m.data) (h6 : '\u2029' ∉ m.data)
    (h4 : ',' ∉ b.data) :
    dataUrlToInfo (encodeDataUrl b m) = ⟨some b, m⟩ := by
  have hdata : ("data:" ++ m ++ ";base64," ++ b).data
      = (('d' :: 'a' :: 't' :: 'a' :: ':' :: (m.data ++ ';' :: "base64".data)))
        ++ ',' :: b.data := by
    have e1 : ("data:" : String).data = ['d', 'a', 't', 'a', ':'] := rfl
    have e2 : (";base64," : String).data = ';' :: "base64".data ++ [','] := rfl
    simp [String.data_append, e1, e2]
  have hcap : captureToSemi (m.data ++ ';' :: "base64".data) = some m.data := by
    refine captureToSemi_append _ _ (fun c hc => ?_)
    exact ⟨fun e => h1 (e ▸ hc), fun e => h3 (e ▸ hc), fun e => h3' (e ▸ hc),
      fun e => h5 (e ▸ hc), fun e => h6 (e ▸ hc)⟩
  have hnc : ',' ∉ ('d' :: 'a' :: 't' :: 'a' :: ':' :: (m.data ++ ';' :: "base64".data)) := by
    simp only [List.mem_cons, List.mem_append]
    push_neg
    exact ⟨by decide, by decide, by decide, by decide, by decide, h2, by decide⟩
  unfold dataUrlToInfo encodeDataUrl
  rw [hdata, splitOnChar_append _ _ _ hnc, splitOnChar_not_mem _ _ h4]
  simp only [List.headD, List.get?]
  rw [matchColonSemi_cons_ne _ _ (by decide), matchColonSemi_cons_ne _ _ (by decide),
      matchColonSemi_cons_ne _ _ (by decide), matchColonSemi_cons_ne _ _ (by decide),
      matchColonSemi_colon _ _ hcap]
  simp [string_data_ne_nil m hm0]

/-- C6 witness: the round trip at payload QUJD and media type image/png. -/
theorem decode_encode_roundtrip_witness :
    dataUrlToInfo (encodeDataUrl "QUJD" "image/png") =
      { base64Data := some "QUJD", mimeType := "image/png" } :=
  decode_encode_roundtrip "QUJD" "image/png" (by decide) (by decide) (by decide)
    (by decide) (by decide) (by decide) (by decide) (by decide)

/-- C7 counterexample: on an input without the data-URL delimiter or prefix
structure, the decoder does not fail: it evaluates to an ordinary result,
with an undefined payload and the fallback media type. -/
theorem dataUrlToInfo_malformed_returns_result :
    dataUrlToInfo "garbage" =
      { base64Data := none, mimeType := "application/octet-stream" } := by decide

/-- C7 (amended): the decoder is total and never raises an error. On every
input without the comma delimiter and without a colon-semicolon prefix
match, it returns a result whose payload is undefined (none) and whose
media type is the fallback application/octet-stream. -/
theorem dataUrlToInfo_malformed_fallback (s : String) (hc : ',' ∉ s.data)
    (hm : matchColonSemi s.data = none) :
    dataUrlToInfo s = { base64Data := none, mimeType := "application/octet-stream" } := by
  unfold dataUrlToInfo
  rw [splitOnChar_not_mem _ _ hc]
  simp [hm]

/-- C7 witness: the fallback result on the input string nonsense. -/
theorem dataUrlToInfo_malformed_fallback_witness :
    dataUrlToInfo "nonsense" =
      { base64Data := none, mimeType := "application/octet-stream" } :=
  dataUrlToInfo_malformed_fallback "nonsense" (by decide) (by decide)

/-- C8: requesting generation with no original image loaded reports the
error immediately, makes no service call, and leaves every other state
field (offsets, image slots, loading flag) unchanged. -/
theorem generateImage_missing_input (s : AppState) (k : Option String)
    (o : ServiceOutcome) (h : s.originalImage = none) :
    (generateImage s k o).2 = false
    ∧ (generateImage s k o).1.error = some "Please upload an image first."
    ∧ (generateImage s k o).1.originalImage = s.originalImage
    ∧ (generateImage s k o).1.editedImage = s.editedImage
    ∧ (generateImage s k o).1.isLoading = s.isLoading
    ∧ (generateImage s k o).1.gazeOffset = s.gazeOffset
    ∧ (generateImage s k o).1.headOffset = s.headOffset
    ∧ (generateImage s k o).1.bodyOffset = s.bodyOffset := by
  simp [generateImage, h]

/-- C8 witness: at a concrete state with no original image, no service call
is made and the error slot is set. -/
theorem generateImage_missing_input_witness :
    (generateImage (AppState.mk none none false none ⟨1, 2⟩ ⟨3, 4⟩ ⟨5, 6⟩)
        none ServiceOutcome.noImage).2 = false
    ∧ (generateImage (AppState.mk none none false none ⟨1, 2⟩ ⟨3, 4⟩ ⟨5, 6⟩)
        none ServiceOutcome.noImage).1.error = some "Please upload an image first." :=
  ⟨(generateImage_missing_input _ none ServiceOutcome.noImage rfl).1,
   (generateImage_missing_input _ none ServiceOutcome.noImage rfl).2.1⟩

/-- C9: while a generation is in flight (the loading flag is set) the
generate button is disabled, so a click starts no second request and
changes nothing. -/
theorem generateClick_in_flight_noop (s : AppState) (k : Option String)
    (o : ServiceOutcome) (h : s.isLoading = true) :
    generateClick s k o = (s, false) := by
  simp [generateClick, generateDisabled, h]

/-- C9 witness: a click at a concrete in-flight state is a no-op. -/
theorem generateClick_in_flight_noop_witness :
    generateClick
      (AppState.mk (some "data:image/png;base64,QUJD") none true none ⟨0, 0⟩ ⟨0, 0⟩ ⟨0, 0⟩)
      none ServiceOutcome.noImage
    = (AppState.mk (some "data:image/png;base64,QUJD") none true none ⟨0, 0⟩ ⟨0, 0⟩ ⟨0, 0⟩,
       false) :=
  generateClick_in_flight_noop _ none ServiceOutcome.noImage rfl

/-- C10: reset zeroes the three offsets and clears the error slot, and
leaves the original image, the edited image and the loading flag
unchanged, whatever the prior state. -/
theorem handleReset_complete (s : AppState) :
    (handleReset s).gazeOffset = ⟨0, 0⟩
    ∧ (handleReset s).headOffset = ⟨0, 0⟩
    ∧ (handleReset s).bodyOffset = ⟨0, 0⟩
    ∧ (handleReset s).error = none
    ∧ (handleReset s).originalImage = s.originalImage
    ∧ (handleReset s).editedImage = s.editedImage
    ∧ (handleReset s).isLoading = s.isLoading :=
  ⟨rfl, rfl, rfl, rfl, rfl, rfl, rfl⟩
